import Mathlib

/-!
Verification of the CSVibe layout core (src/app.py) against its
natural-language specification.

The embedding below is a shallow model of the Python source:
real numbers are modelled as `ℚ` (the source computes with floats but the
spec's claims are exact arithmetic identities), Python `int(...)` truncation
is `pyInt`, Python strings are Lean `String`s, and the external
text-shaping primitive (`Paragraph(...).wrap`) is an oracle parameter of
type `Measure` returning `Except` so that a raising engine is representable.
-/

/-- One point-unit conversion constant (`inch` in reportlab, 72 points). -/
def inch : ℚ := 72

/-- Python `int(x)` applied to a float: truncation toward zero. -/
def pyInt (q : ℚ) : ℤ := if 0 ≤ q then ⌊q⌋ else ⌈q⌉

/-- Python `str.lower()`, modelled character-wise with `Char.toLower`.
The model is exact on ASCII.  Python's full-Unicode lowercasing can also
map non-ASCII characters (such as U+212A) to ASCII ones, which a
character-wise ASCII map does not reproduce; the theorems below therefore
treat the lowered string opaquely — none of them depends on the values
this function takes outside ASCII, and concrete witnesses evaluate it
only on ASCII inputs, where it agrees with the source. -/
def pyLower (s : String) : String := ⟨s.data.map Char.toLower⟩

/-- Python `str.strip()`: drop leading and trailing whitespace. -/
def pyStrip (s : String) : String :=
  ⟨((s.data.dropWhile Char.isWhitespace).reverse.dropWhile Char.isWhitespace).reverse⟩

/-- The `any(ord(char) > 127 for char in text)` check from the source. -/
def anyNonAscii (s : String) : Bool := s.data.any (fun c => 127 < c.toNat)

/-- The custom-font detection heuristic from src/app.py lines 181/184/187/487/736:
`'_' in fontName or any(char.isdigit() for char in fontName[-10:])`. -/
def customFontHeuristic (name : String) : Bool :=
  name.data.any (fun c => c == '_') || (name.takeRight 10).data.any (fun c => c.isDigit)

/-- The six built-in font names accepted verbatim by `register_font_safe`
(src/app.py line 74). -/
def builtinFonts : List String :=
  ["Times-Bold", "Helvetica-Bold", "Helvetica", "Times-Roman", "Courier", "Courier-Bold"]

/-- `register_font_safe` (src/app.py lines 63-77).  The filesystem and the
font-registration backend are modelled as parameters: `file_exists` models
`os.path.exists`, `register_ok` tells whether `pdfmetrics.registerFont`
succeeds (its exception is caught in the source and answered with
`'Times-Bold'`), and `now_ms` models `int(time.time() * 1000)`.
`font_path = none` models Python `None`. -/
def register_font_safe (font_path : Option String) (base_name : String)
    (file_exists : String → Bool) (register_ok : Bool) (now_ms : ℕ) : String :=
  match font_path with
  | none => "Times-Bold"
  | some p =>
    if p ≠ "" && p.endsWith ".ttf" && file_exists p then
      if register_ok then base_name ++ "_" ++ toString now_ms else "Times-Bold"
    else if builtinFonts.contains p then p
    else "Times-Bold"

/-- The scale factor of the Unit/Scale Model (src/app.py lines 130-136):
width and height are scaled against the 11×14 baseline and the two
component scales are averaged. -/
def scale_factor (page_width_inches page_height_inches : ℚ) : ℚ :=
  let baseline_width : ℚ := 11
  let baseline_height : ℚ := 14
  let width_scale := page_width_inches / baseline_width
  let height_scale := page_height_inches / baseline_height
  (width_scale + height_scale) / 2

/-- The Vertical Placement Solver `get_end_positioned_spacer_amount`
(src/app.py lines 222-241). The identical copies `get_quote_spacer_amount`
(520-539) and `get_authored_quote_spacer_amount` (775-794) are embedded by
this one definition.  `scale` is the enclosing closure's `scale_factor`. -/
def get_end_positioned_spacer_amount (position : String)
    (page_h scaled_margin content_height scale : ℚ) : ℚ :=
  let content_area_height := page_h - 2 * scaled_margin
  if position = "top" then 0
  else if position = "middle" then
    max 0 ((content_area_height - content_height) / 2)
  else if position = "bottom" then
    let spacer := content_area_height - content_height
    let conservative_bottom_margin := (pyInt (20 * scale) : ℚ)
    max 0 (spacer - conservative_bottom_margin)
  else 0

/-- A dictionary CSV row with the four required columns
(src/app.py lines 1333: term, pronunciation, type, definition). -/
structure Row where
  term : String
  pronunciation : String
  type : String
  definition : String

/-- A paragraph style; only the font name is inspected by the layout core
(the rest of `ParagraphStyle` feeds the external renderer). -/
structure Style where
  fontName : String

/-- The text-shaping oracle: models building a `Paragraph(text, style)` and
calling `.wrap(available_width, max_height)[1]` with the large fixed
`max_height = 20 * inch` (src/app.py lines 157-169 and 474-481).  An
`Except.error` models the engine raising. -/
abbrev Measure := String → Style → ℚ → Except String ℚ

/-- The closure constants captured by `calculate_content_height` inside
`create_pdf_from_csv` (src/app.py lines 136-151). -/
structure DictCfg where
  scale_factor : ℚ
  scaled_term_size : ℚ
  scaled_term_spacing : ℚ
  scaled_pronunciation_size : ℚ
  scaled_pronunciation_spacing : ℚ
  scaled_definition_size : ℚ
  scaled_line_width : ℚ
  scaled_definition_space_before : ℚ
  page_height : ℚ
  scaled_margin : ℚ
  page_position : String
  available_width : ℚ

/-- Builds the closure constants exactly as src/app.py lines 125-151 does:
every scaled size is `int(nominal * scale_factor)` and the margin is
`1.5 * scale_factor * inch`. -/
def mkDictCfg (term_size term_spacing pronunciation_size pronunciation_spacing
    definition_size : ℚ) (page_width_inches page_height_inches : ℚ)
    (page_position : String) : DictCfg :=
  let s := scale_factor page_width_inches page_height_inches
  let page_width := page_width_inches * inch
  let page_height := page_height_inches * inch
  let scaled_margin := 1.5 * s * inch
  { scale_factor := s
    scaled_term_size := (pyInt (term_size * s) : ℚ)
    scaled_term_spacing := (pyInt (term_spacing * s) : ℚ)
    scaled_pronunciation_size := (pyInt (pronunciation_size * s) : ℚ)
    scaled_pronunciation_spacing := (pyInt (pronunciation_spacing * s) : ℚ)
    scaled_definition_size := (pyInt (definition_size * s) : ℚ)
    scaled_line_width := (pyInt (4 * s) : ℚ)
    scaled_definition_space_before := (pyInt (54 * s) : ℚ)
    page_height := page_height
    scaled_margin := scaled_margin
    page_position := page_position
    available_width := page_width - 2 * scaled_margin }

/-- The pronunciation line `f"{row['pronunciation']} • ({row['type']})"`
(src/app.py lines 159 and 367). -/
def pronunciationText (row : Row) : String :=
  row.pronunciation ++ " • (" ++ row.type ++ ")"

/-- The Height Estimator `calculate_content_height`
(src/app.py lines 154-220).  Returns the estimated height together with a
flag telling whether the conservative fallback (and its warning) was taken.
The whole measurement body is in the `try`, so any raising `measure` call
routes to the fallback `8 * scale_factor * inch`. -/
def calculate_content_height (cfg : DictCfg) (measure : Measure) (row : Row)
    (title_style pronunciation_style definition_style : Style)
    (available_width : ℚ) : ℚ × Bool :=
  let attempt : Except String ℚ := do
    let term_height ← measure (pyLower row.term) title_style available_width
    let pronunciation_height ← measure (pronunciationText row) pronunciation_style available_width
    let definition_height ← measure row.definition definition_style available_width
    let total_height := term_height + cfg.scaled_term_spacing
      + pronunciation_height + cfg.scaled_pronunciation_spacing
      + cfg.scaled_line_width + cfg.scaled_definition_space_before
      + definition_height
    let font_padding : ℚ :=
      (if customFontHeuristic title_style.fontName then cfg.scaled_term_size * 0.20 else 0)
      + (if customFontHeuristic pronunciation_style.fontName then
          cfg.scaled_pronunciation_size * 0.20 else 0)
      + (if customFontHeuristic definition_style.fontName then
          cfg.scaled_definition_size * 0.20 else 0)
    let total_height := total_height + font_padding
    let extra_leading := (pyInt (12 * cfg.scale_factor) : ℚ)
    let pronunciation_leading := (pyInt (4 * cfg.scale_factor) : ℚ)
    let total_height := total_height + extra_leading + pronunciation_leading
    let definition_line_count := max 1 (row.definition.length / 80)
    let total_height := if 2 < definition_line_count then
        total_height + (definition_line_count : ℚ) * (pyInt (8 * cfg.scale_factor) : ℚ)
      else total_height
    let text_content := row.term ++ " " ++ row.pronunciation ++ " " ++ row.definition
    let total_height := if anyNonAscii text_content then
        total_height + (pyInt (6 * cfg.scale_factor) : ℚ)
      else total_height
    let safety_margin := total_height * 0.10
    pure (total_height + safety_margin)
  match attempt with
  | Except.ok h => (h, false)
  | Except.error _ => (8 * cfg.scale_factor * inch, true)

/-- The height estimator as claim C6 words it: the long-text padding rule
(`max(1, len(text) // 80)` lines, padding when the estimate exceeds 2) is
applied to EVERY text segment of the record, not only the definition.
This definition follows the claim, not the source, and exists to be
compared against `calculate_content_height`. -/
def claimed_content_height (cfg : DictCfg) (measure : Measure) (row : Row)
    (title_style pronunciation_style definition_style : Style)
    (available_width : ℚ) : ℚ × Bool :=
  let attempt : Except String ℚ := do
    let term_height ← measure (pyLower row.term) title_style available_width
    let pronunciation_height ← measure (pronunciationText row) pronunciation_style available_width
    let definition_height ← measure row.definition definition_style available_width
    let total_height := term_height + cfg.scaled_term_spacing
      + pronunciation_height + cfg.scaled_pronunciation_spacing
      + cfg.scaled_line_width + cfg.scaled_definition_space_before
      + definition_height
    let font_padding : ℚ :=
      (if customFontHeuristic title_style.fontName then cfg.scaled_term_size * 0.20 else 0)
      + (if customFontHeuristic pronunciation_style.fontName then
          cfg.scaled_pronunciation_size * 0.20 else 0)
      + (if customFontHeuristic definition_style.fontName then
          cfg.scaled_definition_size * 0.20 else 0)
    let total_height := total_height + font_padding
    let extra_leading := (pyInt (12 * cfg.scale_factor) : ℚ)
    let pronunciation_leading := (pyInt (4 * cfg.scale_factor) : ℚ)
    let total_height := total_height + extra_leading + pronunciation_leading
    let term_line_count := max 1 ((pyLower row.term).length / 80)
    let total_height := if 2 < term_line_count then
        total_height + (term_line_count : ℚ) * (pyInt (8 * cfg.scale_factor) : ℚ)
      else total_height
    let pronunciation_line_count := max 1 ((pronunciationText row).length / 80)
    let total_height := if 2 < pronunciation_line_count then
        total_height + (pronunciation_line_count : ℚ) * (pyInt (8 * cfg.scale_factor) : ℚ)
      else total_height
    let definition_line_count := max 1 (row.definition.length / 80)
    let total_height := if 2 < definition_line_count then
        total_height + (definition_line_count : ℚ) * (pyInt (8 * cfg.scale_factor) : ℚ)
      else total_height
    let text_content := row.term ++ " " ++ row.pronunciation ++ " " ++ row.definition
    let total_height := if anyNonAscii text_content then
        total_height + (pyInt (6 * cfg.scale_factor) : ℚ)
      else total_height
    let safety_margin := total_height * 0.10
    pure (total_height + safety_margin)
  match attempt with
  | Except.ok h => (h, false)
  | Except.error _ => (8 * cfg.scale_factor * inch, true)


/-- A flow element appended to the `story` list: a page break, a vertical
spacer, a styled paragraph (tagged with its role), or the horizontal rule. -/
inductive StoryFlow where
  | pageBreak : StoryFlow
  | spacer (amount : ℚ) : StoryFlow
  | para (role : String) (text : String) : StoryFlow
  | hline : StoryFlow

/-- Recognizer for page-break flow elements. -/
def isPageBreak : StoryFlow → Bool
  | StoryFlow.pageBreak => true
  | _ => false

/-- The flow elements one dictionary row contributes to the story
(src/app.py lines 351-376): positioning spacer, lowercased term paragraph,
pronunciation paragraph, horizontal rule, definition paragraph. -/
def dict_block (cfg : DictCfg) (measure : Measure)
    (title_style pronunciation_style definition_style : Style) (row : Row) : List StoryFlow :=
  let content_height := (calculate_content_height cfg measure row
    title_style pronunciation_style definition_style cfg.available_width).1
  let spacer_amount := get_end_positioned_spacer_amount cfg.page_position
    cfg.page_height cfg.scaled_margin content_height cfg.scale_factor
  [StoryFlow.spacer spacer_amount,
   StoryFlow.para "term" (pyLower row.term),
   StoryFlow.para "pronunciation" (pronunciationText row),
   StoryFlow.hline,
   StoryFlow.para "definition" row.definition]

/-- The dictionary-mode story loop (src/app.py lines 341-376) with the
`first_page` flag threaded explicitly: a `PageBreak` is appended before
every row except while `first_page` is still set. -/
def dict_story_go (cfg : DictCfg) (measure : Measure)
    (title_style pronunciation_style definition_style : Style) :
    List Row → Bool → List StoryFlow
  | [], _ => []
  | row :: rest, first_page =>
      (if first_page then [] else [StoryFlow.pageBreak])
        ++ dict_block cfg measure title_style pronunciation_style definition_style row
        ++ dict_story_go cfg measure title_style pronunciation_style definition_style rest false

/-- The full dictionary story, starting with `first_page = True`. -/
def dict_story (cfg : DictCfg) (measure : Measure)
    (title_style pronunciation_style definition_style : Style) (rows : List Row) : List StoryFlow :=
  dict_story_go cfg measure title_style pronunciation_style definition_style rows true

/-- The closure constants captured inside `create_authored_quotes_pdf_from_csv`
(src/app.py lines 685-701). -/
structure AuthoredCfg where
  scale_factor : ℚ
  scaled_quote_size : ℚ
  scaled_author_size : ℚ
  scaled_author_spacing : ℚ
  page_height : ℚ
  scaled_margin : ℚ
  page_position : String
  available_width : ℚ

/-- The authored-quote Height Estimator `calculate_authored_quote_height`
(src/app.py lines 716-772), same shape as the dictionary one but with two
segments and the long-text padding keyed to the quote text. -/
def calculate_authored_quote_height (cfg : AuthoredCfg) (measure : Measure)
    (quote_text author_text : String) (quote_style author_style : Style)
    (available_width : ℚ) : ℚ × Bool :=
  let attempt : Except String ℚ := do
    let quote_height ← measure quote_text quote_style available_width
    let author_height ← measure author_text author_style available_width
    let total_height := quote_height + cfg.scaled_author_spacing + author_height
    let font_padding : ℚ :=
      (if customFontHeuristic quote_style.fontName then cfg.scaled_quote_size * 0.20 else 0)
      + (if customFontHeuristic author_style.fontName then cfg.scaled_author_size * 0.20 else 0)
    let total_height := total_height + font_padding
    let extra_leading := (pyInt (12 * cfg.scale_factor) : ℚ)
    let author_leading := (pyInt (4 * cfg.scale_factor) : ℚ)
    let total_height := total_height + extra_leading + author_leading
    let quote_line_count := max 1 (quote_text.length / 80)
    let total_height := if 2 < quote_line_count then
        total_height + (quote_line_count : ℚ) * (pyInt (8 * cfg.scale_factor) : ℚ)
      else total_height
    let text_content := quote_text ++ " " ++ author_text
    let total_height := if anyNonAscii text_content then
        total_height + (pyInt (6 * cfg.scale_factor) : ℚ)
      else total_height
    let safety_margin := total_height * 0.10
    pure (total_height + safety_margin)
  match attempt with
  | Except.ok h => (h, false)
  | Except.error _ => (8 * cfg.scale_factor * inch, true)

/-- The flow elements one valid authored-quote row contributes
(src/app.py lines 871-890): positioning spacer, quote paragraph,
quote/author spacing, author paragraph. -/
def authored_block (cfg : AuthoredCfg) (measure : Measure)
    (quote_style author_style : Style) (quote_text author_text : String) : List StoryFlow :=
  let content_height := (calculate_authored_quote_height cfg measure quote_text author_text
    quote_style author_style cfg.available_width).1
  let spacer_amount := get_end_positioned_spacer_amount cfg.page_position
    cfg.page_height cfg.scaled_margin content_height cfg.scale_factor
  [StoryFlow.spacer spacer_amount,
   StoryFlow.para "quote" quote_text,
   StoryFlow.spacer cfg.scaled_author_spacing,
   StoryFlow.para "author" author_text]

/-- The authored-quotes story loop (src/app.py lines 853-890) with the
`first_page` flag explicit: rows with fewer than two fields are skipped, the
first two fields are stripped, rows whose stripped quote text is empty are
skipped, and everything else emits a block (with a preceding `PageBreak`
once `first_page` has been cleared). -/
def authored_story_go (cfg : AuthoredCfg) (measure : Measure)
    (quote_style author_style : Style) : List (List String) → Bool → List StoryFlow
  | [], _ => []
  | row :: rest, first_page =>
    if row.length < 2 then
      authored_story_go cfg measure quote_style author_style rest first_page
    else
      let quote_text := pyStrip (row.getD 0 "")
      let author_text := pyStrip (row.getD 1 "")
      if quote_text = "" then
        authored_story_go cfg measure quote_style author_style rest first_page
      else
        (if first_page then [] else [StoryFlow.pageBreak])
          ++ authored_block cfg measure quote_style author_style quote_text author_text
          ++ authored_story_go cfg measure quote_style author_style rest false

/-- The full authored-quotes story, starting with `first_page = True`. -/
def authored_story (cfg : AuthoredCfg) (measure : Measure)
    (quote_style author_style : Style) (rows : List (List String)) : List StoryFlow :=
  authored_story_go cfg measure quote_style author_style rows true

/-- An authored-quote input row survives the two skip checks iff it has at
least two fields and a non-empty first field after stripping. -/
def validAuthoredRow (row : List String) : Bool :=
  decide (2 ≤ row.length) && !(pyStrip (row.getD 0 "") == "")

/-- The stripped (quote, author) pairs of the rows that survive the skip
checks, in source order. -/
def authoredRecords (rows : List (List String)) : List (String × String) :=
  rows.filterMap (fun row =>
    if row.length < 2 then none
    else if pyStrip (row.getD 0 "") = "" then none
    else some (pyStrip (row.getD 0 ""), pyStrip (row.getD 1 "")))

/-- Number of pages of the built document: one page per record block, i.e.
one more than the number of page breaks when the story is non-empty. -/
def pageCount (story : List StoryFlow) : ℕ :=
  if story.isEmpty then 0 else story.countP isPageBreak + 1


/-- Concrete fixture: the default dictionary configuration on the 11×14
baseline page (sidebar defaults of src/app.py lines 1226-1296). -/
def cfgUnit : DictCfg := mkDictCfg 84 48 28 36 28 11 14 "bottom"

/-- Concrete fixture: a shaping oracle that always raises. -/
def measureErr : Measure := fun _ _ _ => Except.error "wrap failed"

/-- Concrete fixture: a shaping oracle that always measures height 0. -/
def measureZero : Measure := fun _ _ _ => Except.ok 0

/-- Concrete fixture: a built-in font style. -/
def styleBuiltin : Style := { fontName := "Times-Bold" }

/-- Concrete fixture: the spec's end-to-end example row. -/
def rowSample : Row :=
  { term := "Voracity", pronunciation := "vohr-AS-i-tee", type := "noun",
    definition := "an extreme eagerness" }

/-- Concrete fixture: a row whose term is 250 characters long (estimated at
3 wrapped lines) but whose definition is short. -/
def rowLongTerm : Row :=
  { term := String.mk (List.replicate 250 'a'), pronunciation := "p", type := "noun",
    definition := "d" }


/-- The value computed by the successful branch of `calculate_content_height`
when the three wrapped heights are `t`, `p`, `d` (the let-chain of
src/app.py lines 171-214, extracted for equational reasoning). -/
def contentHeightTotal (cfg : DictCfg) (row : Row)
    (title_style pronunciation_style definition_style : Style) (t p d : ℚ) : ℚ :=
  let total_height := t + cfg.scaled_term_spacing
    + p + cfg.scaled_pronunciation_spacing
    + cfg.scaled_line_width + cfg.scaled_definition_space_before
    + d
  let font_padding : ℚ :=
    (if customFontHeuristic title_style.fontName then cfg.scaled_term_size * 0.20 else 0)
    + (if customFontHeuristic pronunciation_style.fontName then
        cfg.scaled_pronunciation_size * 0.20 else 0)
    + (if customFontHeuristic definition_style.fontName then
        cfg.scaled_definition_size * 0.20 else 0)
  let total_height := total_height + font_padding
  let extra_leading := (pyInt (12 * cfg.scale_factor) : ℚ)
  let pronunciation_leading := (pyInt (4 * cfg.scale_factor) : ℚ)
  let total_height := total_height + extra_leading + pronunciation_leading
  let definition_line_count := max 1 (row.definition.length / 80)
  let total_height := if 2 < definition_line_count then
      total_height + (definition_line_count : ℚ) * (pyInt (8 * cfg.scale_factor) : ℚ)
    else total_height
  let text_content := row.term ++ " " ++ row.pronunciation ++ " " ++ row.definition
  let total_height := if anyNonAscii text_content then
      total_height + (pyInt (6 * cfg.scale_factor) : ℚ)
    else total_height
  let safety_margin := total_height * 0.10
  total_height + safety_margin

/-- The value computed by the successful branch of `claimed_content_height`
(the per-segment long-text padding variant worded by claim C6). -/
def claimedContentHeightTotal (cfg : DictCfg) (row : Row)
    (title_style pronunciation_style definition_style : Style) (t p d : ℚ) : ℚ :=
  let total_height := t + cfg.scaled_term_spacing
    + p + cfg.scaled_pronunciation_spacing
    + cfg.scaled_line_width + cfg.scaled_definition_space_before
    + d
  let font_padding : ℚ :=
    (if customFontHeuristic title_style.fontName then cfg.scaled_term_size * 0.20 else 0)
    + (if customFontHeuristic pronunciation_style.fontName then
        cfg.scaled_pronunciation_size * 0.20 else 0)
    + (if customFontHeuristic definition_style.fontName then
        cfg.scaled_definition_size * 0.20 else 0)
  let total_height := total_height + font_padding
  let extra_leading := (pyInt (12 * cfg.scale_factor) : ℚ)
  let pronunciation_leading := (pyInt (4 * cfg.scale_factor) : ℚ)
  let total_height := total_height + extra_leading + pronunciation_leading
  let term_line_count := max 1 ((pyLower row.term).length / 80)
  let total_height := if 2 < term_line_count then
      total_height + (term_line_count : ℚ) * (pyInt (8 * cfg.scale_factor) : ℚ)
    else total_height
  let pronunciation_line_count := max 1 ((pronunciationText row).length / 80)
  let total_height := if 2 < pronunciation_line_count then
      total_height + (pronunciation_line_count : ℚ) * (pyInt (8 * cfg.scale_factor) : ℚ)
    else total_height
  let definition_line_count := max 1 (row.definition.length / 80)
  let total_height := if 2 < definition_line_count then
      total_height + (definition_line_count : ℚ) * (pyInt (8 * cfg.scale_factor) : ℚ)
    else total_height
  let text_content := row.term ++ " " ++ row.pronunciation ++ " " ++ row.definition
  let total_height := if anyNonAscii text_content then
      total_height + (pyInt (6 * cfg.scale_factor) : ℚ)
    else total_height
  let safety_margin := total_height * 0.10
  total_height + safety_margin


/-- Concrete fixture: an authored-quotes configuration at unit scale. -/
def authCfgUnit : AuthoredCfg :=
  { scale_factor := 1, scaled_quote_size := 48, scaled_author_size := 24,
    scaled_author_spacing := 24, page_height := 1008, scaled_margin := 108,
    page_position := "bottom", available_width := 576 }


/-- Concrete fixture: a shaping oracle agreeing with `measureZero` on every
text the dictionary estimator ever probes for `rowSample`, but differing
elsewhere. -/
def measureZeroAlt : Measure := fun text _ _ =>
  if text = "unprobed" then Except.ok 99 else Except.ok 0

/-- C1: the Unit/Scale Model's scale factor is the average of the width and
height component scales; on the 11:14 baseline ratio it coincides with both
`width/11` and `height/14`, and off-ratio it lies strictly between them. -/
theorem scale_factor_model (w h : ℚ) :
    scale_factor w h = (w / 11 + h / 14) / 2
    ∧ (w / 11 = h / 14 → scale_factor w h = w / 11 ∧ scale_factor w h = h / 14)
    ∧ (w / 11 ≠ h / 14 →
        (w / 11 < scale_factor w h ∧ scale_factor w h < h / 14)
        ∨ (h / 14 < scale_factor w h ∧ scale_factor w h < w / 11)) := by
  refine ⟨rfl, ?_, ?_⟩
  · intro heq
    constructor
    · simp only [scale_factor]
      rw [← heq]
      ring
    · simp only [scale_factor]
      rw [heq]
      ring
  · intro hne
    rcases lt_or_gt_of_ne hne with hlt | hgt
    · left
      constructor
      · simp only [scale_factor]; linarith
      · simp only [scale_factor]; linarith
    · right
      constructor
      · simp only [scale_factor]; linarith
      · simp only [scale_factor]; linarith

/-- Witness for `scale_factor_model`: the off-ratio page 22×14 has
`w/11 = 2 ≠ 1 = h/14` and its scale factor lies strictly between them. -/
theorem scale_factor_model_witness :
    (22 : ℚ) / 11 ≠ 14 / 14
    ∧ (((22 : ℚ) / 11 < scale_factor 22 14 ∧ scale_factor 22 14 < 14 / 14)
        ∨ ((14 : ℚ) / 14 < scale_factor 22 14 ∧ scale_factor 22 14 < 22 / 11)) :=
  ⟨by norm_num, (scale_factor_model 22 14).2.2 (by norm_num)⟩

/-- C2: for every position string (unknown positions included) and
non-negative content area and block height, the Vertical Placement Solver
returns a non-negative spacer. -/
theorem spacer_amount_nonneg (position : String)
    (page_h scaled_margin content_height scale : ℚ)
    (hA : 0 ≤ page_h - 2 * scaled_margin) (hH : 0 ≤ content_height) :
    0 ≤ get_end_positioned_spacer_amount position page_h scaled_margin content_height scale := by
  unfold get_end_positioned_spacer_amount
  split
  · exact le_refl 0
  · split
    · exact le_max_left 0 _
    · split
      · exact le_max_left 0 _
      · exact le_refl 0

/-- Witness for `spacer_amount_nonneg`: a position value outside
{top, middle, bottom} with a concrete non-negative geometry. -/
theorem spacer_amount_nonneg_witness :
    0 ≤ (1008 : ℚ) - 2 * 108 ∧ 0 ≤ (5 : ℚ)
    ∧ 0 ≤ get_end_positioned_spacer_amount "corner" 1008 108 5 1 :=
  ⟨by norm_num, by norm_num,
    spacer_amount_nonneg "corner" 1008 108 5 1 (by norm_num) (by norm_num)⟩


/-- Evaluation of the solver's middle branch. -/
theorem spacer_middle_eq (page_h scaled_margin content_height scale : ℚ) :
    get_end_positioned_spacer_amount "middle" page_h scaled_margin content_height scale
      = max 0 ((page_h - 2 * scaled_margin - content_height) / 2) := rfl

/-- Evaluation of the solver's bottom branch. -/
theorem spacer_bottom_eq (page_h scaled_margin content_height scale : ℚ) :
    get_end_positioned_spacer_amount "bottom" page_h scaled_margin content_height scale
      = max 0 (page_h - 2 * scaled_margin - content_height - (pyInt (20 * scale) : ℚ)) := rfl

/-- The truncated extra bottom margin is non-negative for non-negative scale. -/
theorem pyInt_twenty_nonneg (scale : ℚ) (hs : 0 ≤ scale) :
    (0 : ℚ) ≤ (pyInt (20 * scale) : ℚ) := by
  unfold pyInt
  rw [if_pos (by positivity)]
  exact_mod_cast Int.floor_nonneg.mpr (by positivity)

/-- C3 counterexample: with scale factor 41/40 (a page slightly taller than
the baseline), `int(20 * scale)` truncates 20.5 down to 20, so the
bottom-placed spacer is NOT `content_area_height − content_height − 20×scale`
floored at 0: at `page_h = 106`, `margin = 3`, `content_height = 0` the code
returns 80 while the claimed formula gives 79.5. -/
theorem bottom_exact_margin_counterexample :
    get_end_positioned_spacer_amount "bottom" 106 3 0 (41 / 40)
      ≠ max 0 ((106 - 2 * 3) - 0 - 20 * (41 / 40)) := by
  have hfloor : pyInt (20 * (41 / 40 : ℚ)) = 20 := by
    unfold pyInt
    rw [if_pos (by norm_num)]
    rw [show (20 * (41 / 40 : ℚ)) = 41 / 2 by norm_num]
    rw [Int.floor_eq_iff]
    norm_num
  rw [spacer_bottom_eq, hfloor]
  rw [show ((106 : ℚ) - 2 * 3 - 0 - ((20 : ℤ) : ℚ)) = 80 by push_cast; norm_num]
  rw [show ((106 : ℚ) - 2 * 3) - 0 - 20 * (41 / 40) = 159 / 2 by norm_num]
  rw [max_eq_right (by norm_num), max_eq_right (by norm_num)]
  norm_num

/-- C3 amended: the bottom-placement spacer equals
`content_area_height − content_height − int(20×scale)` floored at 0, where
the extra bottom margin is `20×scale` truncated to an integer unit (the
Unit/Scale Model's integral-size convention); moreover, for non-negative
scale and a block small enough to fit above the extra margin, the bottom
spacer never exceeds `content_area_height − content_height`. -/
theorem bottom_spacer_formula (page_h scaled_margin content_height scale : ℚ)
    (hs : 0 ≤ scale)
    (hfit : content_height ≤ page_h - 2 * scaled_margin - (pyInt (20 * scale) : ℚ)) :
    get_end_positioned_spacer_amount "bottom" page_h scaled_margin content_height scale
      = max 0 (page_h - 2 * scaled_margin - content_height - (pyInt (20 * scale) : ℚ))
    ∧ get_end_positioned_spacer_amount "bottom" page_h scaled_margin content_height scale
      ≤ (page_h - 2 * scaled_margin) - content_height := by
  have hmargin := pyInt_twenty_nonneg scale hs
  refine ⟨spacer_bottom_eq page_h scaled_margin content_height scale, ?_⟩
  rw [spacer_bottom_eq, max_eq_right (by linarith)]
  linarith

/-- Witness for `bottom_spacer_formula`: page height 106, margin 3,
block height 10, scale 1 (so the truncated extra margin is 20). -/
theorem bottom_spacer_formula_witness :
    (0 : ℚ) ≤ 1
    ∧ (10 : ℚ) ≤ 106 - 2 * 3 - (pyInt (20 * 1) : ℚ)
    ∧ get_end_positioned_spacer_amount "bottom" 106 3 10 1
        = max 0 (106 - 2 * 3 - 10 - (pyInt (20 * 1) : ℚ))
    ∧ get_end_positioned_spacer_amount "bottom" 106 3 10 1 ≤ (106 - 2 * 3) - 10 := by
  have h20 : pyInt (20 * (1 : ℚ)) = 20 := by
    unfold pyInt
    rw [if_pos (by norm_num)]
    norm_num
  have hfit : (10 : ℚ) ≤ 106 - 2 * 3 - (pyInt (20 * (1 : ℚ)) : ℚ) := by
    rw [h20]; push_cast; norm_num
  obtain ⟨h1, h2⟩ := bottom_spacer_formula 106 3 10 1 (by norm_num) hfit
  exact ⟨by norm_num, hfit, h1, h2⟩

/-- C4: with the middle placement policy and a block that fits in the
content area, spacer + block + spacer exactly tiles the content area:
the block is exactly centered. -/
theorem middle_spacer_centers (page_h scaled_margin content_height scale : ℚ)
    (hfit : content_height ≤ page_h - 2 * scaled_margin) :
    get_end_positioned_spacer_amount "middle" page_h scaled_margin content_height scale
      + content_height
      + get_end_positioned_spacer_amount "middle" page_h scaled_margin content_height scale
      = page_h - 2 * scaled_margin := by
  rw [spacer_middle_eq, max_eq_right (by linarith)]
  ring

/-- Witness for `middle_spacer_centers`: content area 100, block height 40. -/
theorem middle_spacer_centers_witness :
    (40 : ℚ) ≤ 106 - 2 * 3
    ∧ get_end_positioned_spacer_amount "middle" 106 3 40 1 + 40
        + get_end_positioned_spacer_amount "middle" 106 3 40 1
      = 106 - 2 * 3 :=
  ⟨by norm_num, middle_spacer_centers 106 3 40 1 (by norm_num)⟩

/-- C5: if any text-shaping call of the Height Estimator raises, the
estimator does not propagate the failure: it returns the fixed conservative
fallback `8 * scale_factor * inch` and flags the warning. -/
theorem height_fallback_on_measure_error (cfg : DictCfg) (measure : Measure) (row : Row)
    (title_style pronunciation_style definition_style : Style) (w : ℚ)
    (herr : (∃ e, measure (pyLower row.term) title_style w = Except.error e)
      ∨ (∃ e, measure (pronunciationText row) pronunciation_style w = Except.error e)
      ∨ (∃ e, measure row.definition definition_style w = Except.error e)) :
    calculate_content_height cfg measure row title_style pronunciation_style definition_style w
      = (8 * cfg.scale_factor * inch, true) := by
  unfold calculate_content_height
  cases h1 : measure (pyLower row.term) title_style w with
  | error e1 => rfl
  | ok v1 =>
    cases h2 : measure (pronunciationText row) pronunciation_style w with
    | error e2 => rfl
    | ok v2 =>
      cases h3 : measure row.definition definition_style w with
      | error e3 => rfl
      | ok v3 =>
        rcases herr with ⟨e, he⟩ | ⟨e, he⟩ | ⟨e, he⟩
        · rw [h1] at he; exact Except.noConfusion he
        · rw [h2] at he; exact Except.noConfusion he
        · rw [h3] at he; exact Except.noConfusion he

/-- Witness for `height_fallback_on_measure_error`: the always-raising
oracle on the sample row yields exactly the fallback with the warning flag. -/
theorem height_fallback_on_measure_error_witness :
    (∃ e, measureErr (pyLower rowSample.term) styleBuiltin 576 = Except.error e)
    ∧ calculate_content_height cfgUnit measureErr rowSample
        styleBuiltin styleBuiltin styleBuiltin 576
      = (8 * cfgUnit.scale_factor * inch, true) :=
  ⟨⟨"wrap failed", rfl⟩,
    height_fallback_on_measure_error cfgUnit measureErr rowSample
      styleBuiltin styleBuiltin styleBuiltin 576 (Or.inl ⟨"wrap failed", rfl⟩)⟩

/-- When all three shaping calls succeed, the Height Estimator computes
exactly the extracted let-chain value. -/
theorem calculate_content_height_ok (cfg : DictCfg) (measure : Measure) (row : Row)
    (title_style pronunciation_style definition_style : Style) (w : ℚ) (t p d : ℚ)
    (ht : measure (pyLower row.term) title_style w = Except.ok t)
    (hp : measure (pronunciationText row) pronunciation_style w = Except.ok p)
    (hd : measure row.definition definition_style w = Except.ok d) :
    calculate_content_height cfg measure row title_style pronunciation_style definition_style w
      = (contentHeightTotal cfg row title_style pronunciation_style definition_style t p d,
          false) := by
  unfold calculate_content_height
  rw [ht, hp, hd]
  rfl

/-- When all shaping calls succeed, the claim-worded estimator computes
exactly its extracted let-chain value. -/
theorem claimed_content_height_ok (cfg : DictCfg) (measure : Measure) (row : Row)
    (title_style pronunciation_style definition_style : Style) (w : ℚ) (t p d : ℚ)
    (ht : measure (pyLower row.term) title_style w = Except.ok t)
    (hp : measure (pronunciationText row) pronunciation_style w = Except.ok p)
    (hd : measure row.definition definition_style w = Except.ok d) :
    claimed_content_height cfg measure row title_style pronunciation_style definition_style w
      = (claimedContentHeightTotal cfg row title_style pronunciation_style definition_style t p d,
          false) := by
  unfold claimed_content_height
  rw [ht, hp, hd]
  rfl

/-- C6 amended: when measurement succeeds, the estimated height decomposes
into a closed-form sum in which the ONLY long-text padding term is the one
keyed to the definition segment: line count `max(1, len(definition) // 80)`,
and when it exceeds 2, `line_count * int(8 * scale)` is added before the
10% safety multiplier.  The term and pronunciation segments contribute no
long-text padding. -/
theorem longtext_padding_definition_only (cfg : DictCfg) (measure : Measure) (row : Row)
    (title_style pronunciation_style definition_style : Style) (w : ℚ) (t p d : ℚ)
    (ht : measure (pyLower row.term) title_style w = Except.ok t)
    (hp : measure (pronunciationText row) pronunciation_style w = Except.ok p)
    (hd : measure row.definition definition_style w = Except.ok d) :
    calculate_content_height cfg measure row title_style pronunciation_style definition_style w
      = ((t + cfg.scaled_term_spacing + p + cfg.scaled_pronunciation_spacing
          + cfg.scaled_line_width + cfg.scaled_definition_space_before + d
          + ((if customFontHeuristic title_style.fontName then cfg.scaled_term_size * 0.20 else 0)
            + (if customFontHeuristic pronunciation_style.fontName then
                cfg.scaled_pronunciation_size * 0.20 else 0)
            + (if customFontHeuristic definition_style.fontName then
                cfg.scaled_definition_size * 0.20 else 0))
          + (pyInt (12 * cfg.scale_factor) : ℚ) + (pyInt (4 * cfg.scale_factor) : ℚ)
          + (if 2 < max 1 (row.definition.length / 80) then
              ((max 1 (row.definition.length / 80) : ℕ) : ℚ) * (pyInt (8 * cfg.scale_factor) : ℚ)
            else 0)
          + (if anyNonAscii (row.term ++ " " ++ row.pronunciation ++ " " ++ row.definition) then
              (pyInt (6 * cfg.scale_factor) : ℚ) else 0)) * (1 + 0.10),
        false) := by
  rw [calculate_content_height_ok cfg measure row title_style pronunciation_style
    definition_style w t p d ht hp hd]
  rw [Prod.mk.injEq]
  refine ⟨?_, rfl⟩
  simp only [contentHeightTotal]
  split_ifs <;> ring

/-- Witness for `longtext_padding_definition_only`: the sample row measured
by the zero oracle on the default configuration. -/
theorem longtext_padding_definition_only_witness :
    measureZero (pyLower rowSample.term) styleBuiltin 576 = Except.ok 0
    ∧ measureZero (pronunciationText rowSample) styleBuiltin 576 = Except.ok 0
    ∧ measureZero rowSample.definition styleBuiltin 576 = Except.ok 0
    ∧ calculate_content_height cfgUnit measureZero rowSample
        styleBuiltin styleBuiltin styleBuiltin 576
      = ((0 + cfgUnit.scaled_term_spacing + 0 + cfgUnit.scaled_pronunciation_spacing
          + cfgUnit.scaled_line_width + cfgUnit.scaled_definition_space_before + 0
          + ((if customFontHeuristic styleBuiltin.fontName then
                cfgUnit.scaled_term_size * 0.20 else 0)
            + (if customFontHeuristic styleBuiltin.fontName then
                cfgUnit.scaled_pronunciation_size * 0.20 else 0)
            + (if customFontHeuristic styleBuiltin.fontName then
                cfgUnit.scaled_definition_size * 0.20 else 0))
          + (pyInt (12 * cfgUnit.scale_factor) : ℚ) + (pyInt (4 * cfgUnit.scale_factor) : ℚ)
          + (if 2 < max 1 (rowSample.definition.length / 80) then
              ((max 1 (rowSample.definition.length / 80) : ℕ) : ℚ)
                * (pyInt (8 * cfgUnit.scale_factor) : ℚ)
            else 0)
          + (if anyNonAscii (rowSample.term ++ " " ++ rowSample.pronunciation
                ++ " " ++ rowSample.definition) then
              (pyInt (6 * cfgUnit.scale_factor) : ℚ) else 0)) * (1 + 0.10),
        false) :=
  ⟨rfl, rfl, rfl,
    longtext_padding_definition_only cfgUnit measureZero rowSample
      styleBuiltin styleBuiltin styleBuiltin 576 0 0 0 rfl rfl rfl⟩

/-- The default configuration evaluates to unit scale with the baseline
constants. -/
theorem cfgUnit_eval : cfgUnit
    = { scale_factor := 1, scaled_term_size := 84, scaled_term_spacing := 48,
        scaled_pronunciation_size := 28, scaled_pronunciation_spacing := 36,
        scaled_definition_size := 28, scaled_line_width := 4,
        scaled_definition_space_before := 54, page_height := 1008,
        scaled_margin := 108, page_position := "bottom", available_width := 576 } := by
  simp only [cfgUnit, mkDictCfg, scale_factor, inch, pyInt, DictCfg.mk.injEq]
  norm_num

set_option maxRecDepth 8000 in
/-- C6 counterexample: on a row whose term is 250 characters long (so its
estimated line count is 3) but whose definition is one character, the code
adds no long-text padding while the per-segment rule worded by the claim
would: the two estimators disagree on a concrete input. -/
theorem longtext_padding_per_segment_counterexample :
    calculate_content_height cfgUnit measureZero rowLongTerm
        styleBuiltin styleBuiltin styleBuiltin 576
      ≠ claimed_content_height cfgUnit measureZero rowLongTerm
        styleBuiltin styleBuiltin styleBuiltin 576 := by
  have hfont : customFontHeuristic styleBuiltin.fontName = false := by decide
  have hna : anyNonAscii (rowLongTerm.term ++ " " ++ rowLongTerm.pronunciation
      ++ " " ++ rowLongTerm.definition) = false := by decide
  have hlenT : (pyLower rowLongTerm.term).length = 250 := by decide
  have hlenP : (pronunciationText rowLongTerm).length = 10 := by decide
  have hlenD : rowLongTerm.definition.length = 1 := by decide
  have hcode : calculate_content_height cfgUnit measureZero rowLongTerm
      styleBuiltin styleBuiltin styleBuiltin 576 = (869/5, false) := by
    rw [calculate_content_height_ok cfgUnit measureZero rowLongTerm
      styleBuiltin styleBuiltin styleBuiltin 576 0 0 0 rfl rfl rfl]
    rw [Prod.mk.injEq]
    refine ⟨?_, rfl⟩
    rw [cfgUnit_eval]
    simp only [contentHeightTotal, hfont, hna, hlenD, if_false, Bool.false_eq_true]
    norm_num [pyInt]
  have hclaim : claimed_content_height cfgUnit measureZero rowLongTerm
      styleBuiltin styleBuiltin styleBuiltin 576 = (1001/5, false) := by
    rw [claimed_content_height_ok cfgUnit measureZero rowLongTerm
      styleBuiltin styleBuiltin styleBuiltin 576 0 0 0 rfl rfl rfl]
    rw [Prod.mk.injEq]
    refine ⟨?_, rfl⟩
    rw [cfgUnit_eval]
    simp only [claimedContentHeightTotal, hfont, hna, hlenT, hlenP, hlenD,
      if_false, Bool.false_eq_true]
    norm_num [pyInt]
  rw [hcode, hclaim]
  rw [Ne, Prod.mk.injEq]
  norm_num

/-- Structural form of the dictionary story loop for any state of the
`first_page` flag. -/
theorem dict_story_go_eq (cfg : DictCfg) (measure : Measure)
    (title_style pronunciation_style definition_style : Style) :
    ∀ (rows : List Row) (first_page : Bool),
    dict_story_go cfg measure title_style pronunciation_style definition_style rows first_page
      = (match rows with
        | [] => []
        | r :: rs =>
          (if first_page then [] else [StoryFlow.pageBreak])
            ++ dict_block cfg measure title_style pronunciation_style definition_style r
            ++ rs.flatMap (fun x => StoryFlow.pageBreak
                :: dict_block cfg measure title_style pronunciation_style definition_style x)) := by
  intro rows
  induction rows with
  | nil => intro first_page; rfl
  | cons r rs ih =>
    intro first_page
    show (if first_page then [] else [StoryFlow.pageBreak]) ++ _ ++
      dict_story_go cfg measure title_style pronunciation_style definition_style rs false = _
    rw [ih false]
    cases rs with
    | nil => simp
    | cons r2 rs2 => simp [List.flatMap_cons]

/-- A row shorter than two fields contributes no authored record. -/
theorem authoredRecords_cons_short (row : List String) (rest : List (List String))
    (h1 : row.length < 2) :
    authoredRecords (row :: rest) = authoredRecords rest := by
  unfold authoredRecords
  simp only [List.filterMap_cons]
  rw [if_pos h1]

/-- A row whose stripped quote text is empty contributes no authored record. -/
theorem authoredRecords_cons_blank (row : List String) (rest : List (List String))
    (h1 : ¬row.length < 2) (h2 : pyStrip (row.getD 0 "") = "") :
    authoredRecords (row :: rest) = authoredRecords rest := by
  unfold authoredRecords
  simp only [List.filterMap_cons]
  rw [if_neg h1, if_pos h2]

/-- A surviving row contributes its stripped quote and author pair. -/
theorem authoredRecords_cons_keep (row : List String) (rest : List (List String))
    (h1 : ¬row.length < 2) (h2 : ¬pyStrip (row.getD 0 "") = "") :
    authoredRecords (row :: rest)
      = (pyStrip (row.getD 0 ""), pyStrip (row.getD 1 "")) :: authoredRecords rest := by
  unfold authoredRecords
  simp only [List.filterMap_cons]
  rw [if_neg h1, if_neg h2]

/-- Structural form of the authored-quotes story loop for any state of the
`first_page` flag: only the surviving records contribute blocks. -/
theorem authored_story_go_eq (cfg : AuthoredCfg) (measure : Measure)
    (quote_style author_style : Style) :
    ∀ (rows : List (List String)) (first_page : Bool),
    authored_story_go cfg measure quote_style author_style rows first_page
      = (match authoredRecords rows with
        | [] => []
        | r :: rs =>
          (if first_page then [] else [StoryFlow.pageBreak])
            ++ authored_block cfg measure quote_style author_style r.1 r.2
            ++ rs.flatMap (fun x => StoryFlow.pageBreak
                :: authored_block cfg measure quote_style author_style x.1 x.2)) := by
  intro rows
  induction rows with
  | nil => intro first_page; rfl
  | cons row rest ih =>
    intro first_page
    by_cases h1 : row.length < 2
    · have hstep : authored_story_go cfg measure quote_style author_style (row :: rest) first_page
          = authored_story_go cfg measure quote_style author_style rest first_page := by
        show (if row.length < 2 then
            authored_story_go cfg measure quote_style author_style rest first_page
          else _) = _
        rw [if_pos h1]
      rw [hstep, authoredRecords_cons_short row rest h1, ih first_page]
    · by_cases h2 : pyStrip (row.getD 0 "") = ""
      · have hstep : authored_story_go cfg measure quote_style author_style (row :: rest) first_page
            = authored_story_go cfg measure quote_style author_style rest first_page := by
          show (if row.length < 2 then
              authored_story_go cfg measure quote_style author_style rest first_page
            else _) = _
          rw [if_neg h1]
          show (if pyStrip (row.getD 0 "") = "" then
              authored_story_go cfg measure quote_style author_style rest first_page
            else _) = _
          rw [if_pos h2]
        rw [hstep, authoredRecords_cons_blank row rest h1 h2, ih first_page]
      · have hstep : authored_story_go cfg measure quote_style author_style (row :: rest) first_page
            = (if first_page then [] else [StoryFlow.pageBreak])
              ++ authored_block cfg measure quote_style author_style
                  (pyStrip (row.getD 0 "")) (pyStrip (row.getD 1 ""))
              ++ authored_story_go cfg measure quote_style author_style rest false := by
          show (if row.length < 2 then
              authored_story_go cfg measure quote_style author_style rest first_page
            else _) = _
          rw [if_neg h1]
          show (if pyStrip (row.getD 0 "") = "" then
              authored_story_go cfg measure quote_style author_style rest first_page
            else _) = _
          rw [if_neg h2]
        rw [hstep, authoredRecords_cons_keep row rest h1 h2, ih false]
        cases hcase : authoredRecords rest with
        | nil => simp
        | cons r2 rs2 => simp [List.flatMap_cons]

/-- A dictionary block contains no page break. -/
theorem dict_block_no_break (cfg : DictCfg) (measure : Measure)
    (title_style pronunciation_style definition_style : Style) (row : Row) :
    (dict_block cfg measure title_style pronunciation_style definition_style row).countP
      isPageBreak = 0 := rfl

/-- An authored block contains no page break. -/
theorem authored_block_no_break (cfg : AuthoredCfg) (measure : Measure)
    (quote_style author_style : Style) (quote_text author_text : String) :
    (authored_block cfg measure quote_style author_style quote_text author_text).countP
      isPageBreak = 0 := rfl

/-- Counting page breaks over the tail blocks: one break per record. -/
theorem countP_break_flatMap {α : Type} (f : α → List StoryFlow)
    (hf : ∀ x, (f x).countP isPageBreak = 0) (l : List α) :
    (l.flatMap (fun x => StoryFlow.pageBreak :: f x)).countP isPageBreak = l.length := by
  induction l with
  | nil => rfl
  | cons x xs ih =>
    rw [List.flatMap_cons, List.countP_append, List.countP_cons]
    simp only [List.countP_cons, hf x, ih, List.length_cons, isPageBreak]
    simp
    omega

/-- One non-empty leading block followed by break-prefixed blocks yields one
page per block. -/
theorem pageCount_block_flatMap {α : Type} (b : List StoryFlow)
    (hb : b.countP isPageBreak = 0) (hne : b.isEmpty = false)
    (blocks : α → List StoryFlow)
    (hblocks : ∀ x, (blocks x).countP isPageBreak = 0) (l : List α) :
    pageCount (b ++ l.flatMap (fun x => StoryFlow.pageBreak :: blocks x))
      = l.length + 1 := by
  cases b with
  | nil => simp at hne
  | cons y ys =>
    unfold pageCount
    rw [List.cons_append]
    simp only [List.isEmpty_cons, Bool.false_eq_true, if_false]
    rw [← List.cons_append, List.countP_append, hb, countP_break_flatMap blocks hblocks l]
    omega

/-- The page count of an authored story is the number of surviving records. -/
theorem authored_pageCount_eq (cfg : AuthoredCfg) (measure : Measure)
    (quote_style author_style : Style) (rows : List (List String)) :
    pageCount (authored_story cfg measure quote_style author_style rows)
      = (authoredRecords rows).length := by
  unfold authored_story
  rw [authored_story_go_eq]
  cases hcase : authoredRecords rows with
  | nil => rfl
  | cons r rs =>
    show pageCount ((if true then [] else [StoryFlow.pageBreak]) ++ _ ++ _) = _
    rw [if_pos rfl, List.nil_append, List.length_cons]
    have hb2 : (authored_block cfg measure quote_style author_style r.1 r.2).countP
        isPageBreak = 0 :=
      authored_block_no_break cfg measure quote_style author_style r.1 r.2
    have hne2 : (authored_block cfg measure quote_style author_style r.1 r.2).isEmpty
        = false := rfl
    exact pageCount_block_flatMap _ hb2 hne2
      (fun x : String × String => authored_block cfg measure quote_style author_style x.1 x.2)
      (fun x : String × String =>
        authored_block_no_break cfg measure quote_style author_style x.1 x.2) rs

/-- The surviving records are exactly the rows passing the validity check. -/
theorem authoredRecords_length (rows : List (List String)) :
    (authoredRecords rows).length = rows.countP validAuthoredRow := by
  induction rows with
  | nil => rfl
  | cons row rest ih =>
    by_cases h1 : row.length < 2
    · rw [authoredRecords_cons_short row rest h1, ih, List.countP_cons]
      have hv : validAuthoredRow row = false := by
        unfold validAuthoredRow
        have hn : ¬(2 ≤ row.length) := by omega
        simp [hn]
      simp [hv]
    · by_cases h2 : pyStrip (row.getD 0 "") = ""
      · rw [authoredRecords_cons_blank row rest h1 h2, ih, List.countP_cons]
        have hv : validAuthoredRow row = false := by
          unfold validAuthoredRow
          rw [h2]
          simp
        simp [hv]
      · rw [authoredRecords_cons_keep row rest h1 h2, List.length_cons, ih, List.countP_cons]
        have hv : validAuthoredRow row = true := by
          unfold validAuthoredRow
          have hb : (pyStrip (row.getD 0 "") == "") = false := by
            rw [beq_eq_false_iff_ne]
            exact h2
          rw [hb]
          have hn : 2 ≤ row.length := Nat.le_of_not_lt h1
          simp [hn]
        simp [hv]

/-- C7: in AuthoredQuote mode a row produces a page iff it has at least two
fields and a non-empty first field after trimming (the page count equals the
count of such rows, for every input), and in particular one well-formed row
plus one row with fewer than two fields yield exactly one page. -/
theorem authored_row_page_iff (cfg : AuthoredCfg) (measure : Measure)
    (quote_style author_style : Style) :
    (∀ rows, pageCount (authored_story cfg measure quote_style author_style rows)
        = rows.countP validAuthoredRow)
    ∧ (∀ good bad : List String, validAuthoredRow good = true → bad.length < 2 →
        pageCount (authored_story cfg measure quote_style author_style [good, bad]) = 1) := by
  have hmain : ∀ rows, pageCount (authored_story cfg measure quote_style author_style rows)
      = rows.countP validAuthoredRow := by
    intro rows
    rw [authored_pageCount_eq, authoredRecords_length]
  refine ⟨hmain, ?_⟩
  intro good bad hg hb
  rw [hmain [good, bad]]
  have hvb : validAuthoredRow bad = false := by
    unfold validAuthoredRow
    have hn : ¬(2 ≤ bad.length) := by omega
    simp [hn]
  simp [List.countP_cons, hg, hvb]

/-- Witness for `authored_row_page_iff`: one well-formed row and one
one-field row give a one-page document. -/
theorem authored_row_page_iff_witness :
    validAuthoredRow ["Stay hungry", "Jobs"] = true
    ∧ (["loner"] : List String).length = 1
    ∧ pageCount (authored_story authCfgUnit measureZero styleBuiltin styleBuiltin
        [["Stay hungry", "Jobs"], ["loner"]]) = 1 :=
  ⟨by decide, rfl,
    (authored_row_page_iff authCfgUnit measureZero styleBuiltin styleBuiltin).2
      ["Stay hungry", "Jobs"] ["loner"] (by decide) (by decide)⟩

/-- C8: both assemblers emit, for each (surviving) record, its block — a
spacer followed by the role-ordered content elements — with a page-break
marker immediately before the block of every record after the first, no
page break before the first block and none after the last. -/
theorem page_assembler_sequence (cfg : DictCfg) (measure : Measure)
    (title_style pronunciation_style definition_style : Style) (rows : List Row)
    (acfg : AuthoredCfg) (ameasure : Measure) (quote_style author_style : Style)
    (arows : List (List String)) :
    dict_story cfg measure title_style pronunciation_style definition_style rows
      = (match rows with
        | [] => []
        | r :: rs =>
          dict_block cfg measure title_style pronunciation_style definition_style r
            ++ rs.flatMap (fun x => StoryFlow.pageBreak
                :: dict_block cfg measure title_style pronunciation_style definition_style x))
    ∧ authored_story acfg ameasure quote_style author_style arows
      = (match authoredRecords arows with
        | [] => []
        | r :: rs =>
          authored_block acfg ameasure quote_style author_style r.1 r.2
            ++ rs.flatMap (fun x => StoryFlow.pageBreak
                :: authored_block acfg ameasure quote_style author_style x.1 x.2))
    ∧ (∀ row : Row, ∃ amount rest,
        dict_block cfg measure title_style pronunciation_style definition_style row
          = StoryFlow.spacer amount :: rest) := by
  refine ⟨?_, ?_, ?_⟩
  · rw [dict_story, dict_story_go_eq]
    cases rows with
    | nil => rfl
    | cons r rs => rfl
  · rw [authored_story, authored_story_go_eq]
    cases hcase : authoredRecords arows with
    | nil => rfl
    | cons r rs => rfl
  · intro row
    exact ⟨_, _, rfl⟩

/-- C9: in Dictionary mode the term is lowercased once and the same string
feeds both measurement and rendering: the emitted term paragraph carries
`pyLower row.term`, and the Height Estimator consults the text-shaping
oracle only at that same lowered term (together with the pronunciation line
and the definition) — two oracles that agree on those three probe texts
yield the same estimate, so the paragraph that is measured is exactly the
paragraph that is rendered. -/
theorem term_lowercase_consistency (cfg : DictCfg) (measure measure' : Measure) (row : Row)
    (title_style pronunciation_style definition_style : Style) :
    (∃ amount, dict_block cfg measure title_style pronunciation_style definition_style row
      = [StoryFlow.spacer amount,
         StoryFlow.para "term" (pyLower row.term),
         StoryFlow.para "pronunciation" (pronunciationText row),
         StoryFlow.hline,
         StoryFlow.para "definition" row.definition])
    ∧ (∀ w,
        measure (pyLower row.term) title_style w
          = measure' (pyLower row.term) title_style w →
        measure (pronunciationText row) pronunciation_style w
          = measure' (pronunciationText row) pronunciation_style w →
        measure row.definition definition_style w
          = measure' row.definition definition_style w →
        calculate_content_height cfg measure row
          title_style pronunciation_style definition_style w
        = calculate_content_height cfg measure' row
          title_style pronunciation_style definition_style w) := by
  refine ⟨⟨_, rfl⟩, ?_⟩
  intro w h1 h2 h3
  unfold calculate_content_height
  rw [h1, h2, h3]

/-- Witness for `term_lowercase_consistency`: two concretely different
oracles that agree on the three probed texts of the sample row give the
same estimated height. -/
theorem term_lowercase_consistency_witness :
    measureZero (pyLower rowSample.term) styleBuiltin 576
      = measureZeroAlt (pyLower rowSample.term) styleBuiltin 576
    ∧ measureZero (pronunciationText rowSample) styleBuiltin 576
      = measureZeroAlt (pronunciationText rowSample) styleBuiltin 576
    ∧ measureZero rowSample.definition styleBuiltin 576
      = measureZeroAlt rowSample.definition styleBuiltin 576
    ∧ calculate_content_height cfgUnit measureZero rowSample
        styleBuiltin styleBuiltin styleBuiltin 576
      = calculate_content_height cfgUnit measureZeroAlt rowSample
        styleBuiltin styleBuiltin styleBuiltin 576 :=
  ⟨rfl, rfl, rfl,
    (term_lowercase_consistency cfgUnit measureZero measureZeroAlt rowSample
      styleBuiltin styleBuiltin styleBuiltin).2 576 rfl rfl rfl⟩

/-- Any freshly built registration name `base_name ++ "_" ++ digits`
contains an underscore, so the custom-font heuristic fires on it. -/
theorem customFontHeuristic_fresh (base_name suffix : String) :
    customFontHeuristic (base_name ++ "_" ++ suffix) = true := by
  unfold customFontHeuristic
  have hmem : ('_') ∈ (base_name ++ "_" ++ suffix).data := by
    rw [String.data_append, String.data_append]
    refine List.mem_append.mpr (Or.inl ?_)
    refine List.mem_append.mpr (Or.inr ?_)
    decide
  have hany : (base_name ++ "_" ++ suffix).data.any (fun c => c == '_') = true := by
    rw [List.any_eq_true]
    exact ⟨'_', hmem, by decide⟩
  rw [hany]
  rfl

/-- C10: `register_font_safe` is total (it is a function in this model, with
the registration backend's exception absorbed into the `register_ok` flag),
and its result is always either one of the six built-in font names or the
freshly registered `base_name ++ "_" ++ timestamp` name, which contains an
underscore so the custom-font heuristic — the condition gating the 20%
padding in the Height Estimator — fires on it. -/
theorem register_font_safe_range (font_path : Option String) (base_name : String)
    (file_exists : String → Bool) (register_ok : Bool) (now_ms : ℕ) :
    register_font_safe font_path base_name file_exists register_ok now_ms ∈ builtinFonts
    ∨ (register_font_safe font_path base_name file_exists register_ok now_ms
        = base_name ++ "_" ++ toString now_ms
      ∧ customFontHeuristic
          (register_font_safe font_path base_name file_exists register_ok now_ms) = true) := by
  cases font_path with
  | none =>
    left
    show ("Times-Bold" : String) ∈ builtinFonts
    decide
  | some p =>
    unfold register_font_safe
    dsimp only
    by_cases hc1 : (decide (p ≠ "") && p.endsWith ".ttf" && file_exists p) = true
    · rw [if_pos hc1]
      cases register_ok with
      | true =>
        rw [if_pos rfl]
        right
        exact ⟨rfl, customFontHeuristic_fresh base_name (toString now_ms)⟩
      | false =>
        rw [if_neg Bool.false_ne_true]
        left
        decide
    · rw [if_neg hc1]
      by_cases hc2 : builtinFonts.contains p = true
      · rw [if_pos hc2]
        left
        exact List.mem_of_elem_eq_true hc2
      · rw [if_neg hc2]
        left
        decide
